import Mathlib

/-!
# Petalo-de-Rosas: a shallow embedding of `script.js`

The script animates a bouquet of roses on a canvas.  We embed the curve
helpers, the `Rose` class (constructor, `update`, the numeric part of
`draw`) and the bouquet layout (`resizeCanvas`, `basePoint`,
`createBouquet`) as pure functions.

Modelling decisions:

* JavaScript numbers are modelled by an arbitrary linearly ordered field
  `K` (exact arithmetic); concrete evaluations use `ℚ`, the derivative
  statement uses `ℝ`.
* `Math.sin`, `Math.cos` and `Math.PI` are the fields of a `JSMath` record
  passed as a parameter; `Math.random()` is a stream `ℕ → K` of outcomes.
* `startTime` is `Option K`, `none` standing for `null`.  The guard
  `!this.startTime` is JavaScript falsiness (`null` and `0`), and `null`
  coerces to `0` in a subtraction.
* Module-level mutable state (`canvas`, `basePoint`, `roses`) is the record
  `World`, threaded explicitly.
-/

namespace PetaloDeRosas

/-! ## Data model -/

/-- A 2D point `{ x, y }`. -/
structure Point (K : Type) where
  x : K
  y : K
deriving DecidableEq, Repr

/-- The parts of the `Math` object the script uses. -/
structure JSMath (K : Type) where
  sin : K → K
  cos : K → K
  pi : K

/-- The fields assigned by the `Rose` constructor (lines 45-73). -/
structure Rose (K : Type) where
  x : K
  y : K
  initialX : K
  initialY : K
  size : K
  colors : String × String
  petalCount : ℕ
  tiltDirection : K
  isMain : Bool
  petalDelay : K
  petalDuration : K
  startTime : Option K
  fullBloom : Bool
  phase : K
  swayAmplitude : K
  swayFrequency : K
  stemP0 : Point K
  stemP3 : Point K
  stemP1 : Point K
  stemP2 : Point K

/-- Module-level state: the canvas dimensions, the constant `basePoint`
computed once when the script loads, and the array `roses`. -/
structure World (K : Type) where
  canvasWidth : K
  canvasHeight : K
  basePoint : Point K
  roses : List (Rose K)

/-! ## Curve helpers (lines 19-40) -/

section Curve

variable {K : Type} [Field K]

/-- Lines 19-30: `getCubicBezierPoint(t, p0, p1, p2, p3)`. -/
def getCubicBezierPoint (t : K) (p0 p1 p2 p3 : Point K) : Point K :=
  let u := 1 - t
  let tt := t * t
  let uu := u * u
  let uuu := uu * u
  let ttt := tt * t
  { x := uuu * p0.x + 3 * uu * t * p1.x + 3 * u * tt * p2.x + ttt * p3.x
    y := uuu * p0.y + 3 * uu * t * p1.y + 3 * u * tt * p2.y + ttt * p3.y }

/-- Lines 32-40: `getCubicBezierTangent(t, p0, p1, p2, p3)`. -/
def getCubicBezierTangent (t : K) (p0 p1 p2 p3 : Point K) : Point K :=
  let u := 1 - t
  let tt := t * t
  let uu := u * u
  { x := -3 * uu * p0.x + 3 * uu * p1.x - 6 * u * t * p1.x + 6 * u * t * p2.x
          - 3 * tt * p2.x + 3 * tt * p3.x
    y := -3 * uu * p0.y + 3 * uu * p1.y - 6 * u * t * p1.y + 6 * u * t * p2.y
          - 3 * tt * p2.y + 3 * tt * p3.y }

end Curve

/-! ## The `Rose` class (lines 43-170) -/

section RoseClass

variable {K : Type} [LinearOrderedField K]

/-- JavaScript `!v` for a value that is `null` or a number: true for `null`
and for `0`. -/
def falsy (v : Option K) : Bool :=
  match v with
  | none => true
  | some n => decide (n = 0)

/-- JavaScript numeric coercion of a value that is `null` or a number:
`null` becomes `0`. -/
def toNumber (v : Option K) : K :=
  match v with
  | none => 0
  | some n => n

/-- Lines 44-74: `new Rose(x, y, size, colors, petalCount, tiltDirection,
isMain)`.  `basePoint` is the module constant read by the constructor;
`u0 u1 u2` are the outcomes of its three `Math.random()` calls, in order. -/
def newRose (M : JSMath K) (basePoint : Point K) (u0 u1 u2 : K)
    (x y size : K) (colors : String × String) (petalCount : ℕ)
    (tiltDirection : K) (isMain : Bool) : Rose K :=
  { x := x
    y := y
    initialX := x
    initialY := y
    size := size
    colors := colors
    petalCount := petalCount
    tiltDirection := tiltDirection
    isMain := isMain
    petalDelay := 300
    petalDuration := 500
    startTime := none
    fullBloom := false
    phase := u0 * M.pi * 2
    swayAmplitude := 10
    swayFrequency := 2 / 1000
    stemP0 := { x := x, y := y + size * (5 / 10) }
    stemP3 := { x := basePoint.x, y := basePoint.y }
    stemP1 := { x := x + (u1 * 40 - 20), y := y + size * (12 / 10) }
    stemP2 := { x := (x + basePoint.x) / 2 + (u2 * 40 - 20), y := (y + basePoint.y) / 2 } }

/-- Line 92: the right-hand side of the full-bloom comparison,
`petalCount * petalDelay + petalDuration`. -/
def Rose.bloomThreshold (r : Rose K) : K :=
  (r.petalCount : K) * r.petalDelay + r.petalDuration

/-- Lines 87-89: the latching step of `update`. -/
def Rose.latch (r : Rose K) (currentTime : K) : Rose K :=
  if falsy r.startTime then { r with startTime := some currentTime } else r

/-- Lines 86-95: `update(currentTime)`. -/
def Rose.update (r : Rose K) (currentTime : K) : Rose K :=
  let r1 := r.latch currentTime
  let elapsed := currentTime - toNumber r1.startTime
  if elapsed > r1.bloomThreshold then { r1 with fullBloom := true } else r1

/-- Line 98: `elapsed = currentTime - this.startTime` as `draw` computes it. -/
def Rose.elapsed (r : Rose K) (currentTime : K) : K :=
  currentTime - toNumber r.startTime

/-- Lines 102-107: the pair `(swayOffsetX, swayOffsetY)`. -/
def Rose.swayOffset (M : JSMath K) (r : Rose K) (currentTime : K) : K × K :=
  if r.fullBloom then
    let sway := M.sin (currentTime * r.swayFrequency + r.phase) * r.swayAmplitude
    (sway * r.tiltDirection, sway * (3 / 10))
  else (0, 0)

/-- Lines 112-113: `growth` of petal `i` at a given `elapsed`. -/
def Rose.petalGrowth (r : Rose K) (elapsed : K) (i : ℕ) : K :=
  let petalElapsed := elapsed - (i : K) * r.petalDelay
  min (max (petalElapsed / r.petalDuration) 0) 1

/-- Lines 98 and 111-113: the `growth` values the petal loop of
`draw(currentTime)` computes, for `i = 0, ..., petalCount - 1`. -/
def Rose.growths (r : Rose K) (currentTime : K) : List K :=
  (List.range r.petalCount).map (fun i => r.petalGrowth (r.elapsed currentTime) i)

/-- One petal painted by the loop body (lines 115-131): its index, the
rotation angle and the scale factor. -/
structure PetalDraw (K : Type) where
  index : ℕ
  rotate : K
  scale : K

/-- What `draw` computes for the bloom: the argument of `ctx.translate`,
the `growth` of every loop index, and the petals actually painted. -/
structure BloomFrame (K : Type) where
  translate : K × K
  growth : List K
  petals : List (PetalDraw K)

/-- Lines 97-133: the numeric content of `draw(currentTime)` for the bloom
(translation, petal loop). -/
def Rose.draw (M : JSMath K) (r : Rose K) (currentTime : K) : BloomFrame K :=
  let elapsed := r.elapsed currentTime
  let off := r.swayOffset M currentTime
  { translate := (r.x + off.1, r.y + off.2)
    growth := r.growths currentTime
    petals := ((List.range r.petalCount).filter
        (fun i => decide (r.petalGrowth elapsed i > 0))).map
      (fun i =>
        { index := i
          rotate := ((i : K) * 2 * M.pi) / (r.petalCount : K) + r.tiltDirection * (1 / 10)
          scale := r.size * (4 / 10) * r.petalGrowth elapsed i }) }

end RoseClass

/-! ## Canvas and bouquet (lines 8-16, 173-203) -/

section Bouquet

variable {K : Type} [LinearOrderedField K]

/-- Lines 8-11: `resizeCanvas()`, reading `window.innerWidth` and
`window.innerHeight`. -/
def resizeCanvas (innerWidth innerHeight : K) (w : World K) : World K :=
  { w with
    canvasWidth := min (innerWidth * (9 / 10)) 1000
    canvasHeight := min (innerHeight * (7 / 10)) 600 }

/-- Lines 181-185: `mainColors`. -/
def mainColors : List (String × String) :=
  [("#ffcccc", "#ff3366"), ("#ffffff", "#ff99b3"), ("#ffffcc", "#ffcc00")]

/-- Lines 187-192: main rose `i`; it is the `i`-th rose constructed, so it
consumes random outcomes `3 * i`, `3 * i + 1`, `3 * i + 2`. -/
def mainRose (M : JSMath K) (w : World K) (rnd : ℕ → K) (i : ℕ) : Rose K :=
  let centerX := w.canvasWidth / 2
  let centerY := w.canvasHeight / 2
  let radius := min w.canvasWidth w.canvasHeight / 4
  let angle := ((i : K) * 2 * M.pi) / 3 - M.pi / 2
  let x := centerX + radius * M.cos angle
  let y := centerY + radius * M.sin angle
  newRose M w.basePoint (rnd (3 * i)) (rnd (3 * i + 1)) (rnd (3 * i + 2))
    x y 80 (mainColors.getD i ("", "")) 8 (if i % 2 = 0 then 1 else -1) true

/-- Lines 195-200: secondary rose `i`; it is rose number `3 + i` of the
bouquet. -/
def secondaryRose (M : JSMath K) (w : World K) (rnd : ℕ → K) (i : ℕ) : Rose K :=
  let centerX := w.canvasWidth / 2
  let centerY := w.canvasHeight / 2
  let radius := min w.canvasWidth w.canvasHeight / 4
  let angle := ((i : K) * 2 * M.pi) / 3 - M.pi / 2 + M.pi / 6
  let x := centerX + (radius * (12 / 10)) * M.cos angle
  let y := centerY + (radius * (12 / 10)) * M.sin angle
  newRose M w.basePoint (rnd (3 * (3 + i))) (rnd (3 * (3 + i) + 1)) (rnd (3 * (3 + i) + 2))
    x y 50 (mainColors.getD (i % 3) ("", "")) 6 (if i % 2 = 0 then 5 / 10 else -(5 / 10)) false

/-- Lines 174-201: `createBouquet()`. -/
def createBouquet (M : JSMath K) (rnd : ℕ → K) (w : World K) : World K :=
  { w with
    roses := (List.range 3).map (mainRose M w rnd) ++ (List.range 3).map (secondaryRose M w rnd) }

/-- Lines 13-16 and 203: what happens when the script is loaded in a window
of the given inner size: `resizeCanvas()`, then `basePoint` is computed from
the canvas, then `createBouquet()`. -/
def loadScript (M : JSMath K) (rnd : ℕ → K) (innerWidth innerHeight : K) : World K :=
  let w0 : World K :=
    resizeCanvas innerWidth innerHeight
      { canvasWidth := 0, canvasHeight := 0, basePoint := { x := 0, y := 0 }, roses := [] }
  let w1 : World K :=
    { w0 with basePoint := { x := w0.canvasWidth / 2, y := w0.canvasHeight + 50 } }
  createBouquet M rnd w1

/-- Lines 211-214: the body of `animate(time)` on the roses: `update` then
`draw` for each rose; the updated roses are kept. -/
def animate (w : World K) (time : K) : World K :=
  { w with roses := w.roses.map (fun r => r.update time) }

end Bouquet

/-! ## Sample data -/

/-- The first main rose of a bouquet on a 1000 x 600 canvas (centre
`(500, 300)`, radius `150`, straight up), with the three random outcomes
`0`, `1/2`, `1/2`. -/
def sampleRose (K : Type) [LinearOrderedField K] : Rose K :=
  { x := 500
    y := 150
    initialX := 500
    initialY := 150
    size := 80
    colors := ("#ffcccc", "#ff3366")
    petalCount := 8
    tiltDirection := 1
    isMain := true
    petalDelay := 300
    petalDuration := 500
    startTime := none
    fullBloom := false
    phase := 0
    swayAmplitude := 10
    swayFrequency := 2 / 1000
    stemP0 := { x := 500, y := 190 }
    stemP3 := { x := 500, y := 650 }
    stemP1 := { x := 500, y := 246 }
    stemP2 := { x := 500, y := 400 } }

/-! ## Structural lemmas about `update` -/

section UpdateLemmas

variable {K : Type} [LinearOrderedField K]

theorem draw_growth (M : JSMath K) (r : Rose K) (t : K) :
    (r.draw M t).growth = r.growths t :=
  rfl

theorem update_startTime (r : Rose K) (t : K) :
    (r.update t).startTime = (r.latch t).startTime := by
  unfold Rose.update; dsimp only; split <;> rfl

theorem latch_fullBloom (r : Rose K) (t : K) : (r.latch t).fullBloom = r.fullBloom := by
  unfold Rose.latch; split <;> rfl

theorem latch_bloomThreshold (r : Rose K) (t : K) :
    (r.latch t).bloomThreshold = (r.petalCount : K) * r.petalDelay + r.petalDuration := by
  unfold Rose.latch Rose.bloomThreshold; split <;> rfl

theorem latch_startTime_fresh (r : Rose K) (t : K) (h : r.startTime = none) :
    (r.latch t).startTime = some t := by
  unfold Rose.latch; rw [h]; rfl

theorem latch_startTime_latched (r : Rose K) (s t : K) (h : r.startTime = some s)
    (hs : s ≠ 0) : (r.latch t).startTime = some s := by
  unfold Rose.latch
  rw [h]
  simp [falsy, hs, h]

theorem latch_startTime_zero (r : Rose K) (t : K) (h : r.startTime = some 0) :
    (r.latch t).startTime = some t := by
  unfold Rose.latch
  rw [h]
  simp [falsy]

theorem update_startTime_fresh (r : Rose K) (t : K) (h : r.startTime = none) :
    (r.update t).startTime = some t := by
  rw [update_startTime, latch_startTime_fresh r t h]

theorem update_startTime_latched (r : Rose K) (s t : K) (h : r.startTime = some s)
    (hs : s ≠ 0) : (r.update t).startTime = some s := by
  rw [update_startTime, latch_startTime_latched r s t h hs]

theorem update_startTime_zero (r : Rose K) (t : K) (h : r.startTime = some 0) :
    (r.update t).startTime = some t := by
  rw [update_startTime, latch_startTime_zero r t h]

theorem update_petalCount (r : Rose K) (t : K) : (r.update t).petalCount = r.petalCount := by
  unfold Rose.update Rose.latch
  dsimp only
  split <;> split <;> rfl

theorem update_petalDelay (r : Rose K) (t : K) : (r.update t).petalDelay = r.petalDelay := by
  unfold Rose.update Rose.latch
  dsimp only
  split <;> split <;> rfl

theorem update_petalDuration (r : Rose K) (t : K) :
    (r.update t).petalDuration = r.petalDuration := by
  unfold Rose.update Rose.latch
  dsimp only
  split <;> split <;> rfl

/-- Once `startTime` holds a nonzero number, no sequence of further `update`
calls changes it. -/
theorem foldl_update_startTime (ts : List K) (r : Rose K) (s : K)
    (h : r.startTime = some s) (hs : s ≠ 0) :
    (ts.foldl Rose.update r).startTime = some s := by
  induction ts generalizing r with
  | nil => exact h
  | cons t rest ih => exact ih (r.update t) (update_startTime_latched r s t h hs)

/-- For a fresh rose and a nonzero first timestamp `t0`, `startTime` is `t0`
after the first `update` and after every later one. -/
theorem startTime_latched_of_ne_zero (r : Rose K) (t0 : K) (ts : List K)
    (h : r.startTime = none) (h0 : t0 ≠ 0) :
    (ts.foldl Rose.update (r.update t0)).startTime = some t0 :=
  foldl_update_startTime ts (r.update t0) t0 (update_startTime_fresh r t0 h) h0

end UpdateLemmas

/-! ## Structural lemmas about the bouquet -/

section BouquetLemmas

variable {K : Type} [LinearOrderedField K]

theorem createBouquet_canvas (M : JSMath K) (rnd : ℕ → K) (w : World K) :
    (createBouquet M rnd w).canvasWidth = w.canvasWidth ∧
    (createBouquet M rnd w).canvasHeight = w.canvasHeight ∧
    (createBouquet M rnd w).basePoint = w.basePoint :=
  ⟨rfl, rfl, rfl⟩

/-- Every rose of a bouquet takes its `stemP3` from the module constant
`basePoint`, whatever the canvas dimensions are at that moment. -/
theorem createBouquet_stemP3 (M : JSMath K) (rnd : ℕ → K) (w : World K) :
    (createBouquet M rnd w).roses.map (fun r => r.stemP3) = List.replicate 6 w.basePoint := by
  simp [createBouquet, mainRose, secondaryRose, newRose, List.range_succ, List.replicate]

/-- The constant `basePoint` is computed from the canvas dimensions in force
when the script loads. -/
theorem loadScript_basePoint (M : JSMath K) (rnd : ℕ → K) (innerWidth innerHeight : K) :
    (loadScript M rnd innerWidth innerHeight).basePoint =
      { x := (loadScript M rnd innerWidth innerHeight).canvasWidth / 2
        y := (loadScript M rnd innerWidth innerHeight).canvasHeight + 50 } :=
  rfl

theorem resizeCanvas_basePoint (innerWidth innerHeight : K) (w : World K) :
    (resizeCanvas innerWidth innerHeight w).basePoint = w.basePoint :=
  rfl

end BouquetLemmas

/-! ## Claims about `update` -/

section UpdateClaims

variable {K : Type} [LinearOrderedField K]

/-- Claim C1. After `update(t)` the flag `fullBloom` is true exactly when it
was true before the call or `t - startTime` is strictly greater than
`petalCount * petalDelay + petalDuration`, with `startTime` the value held
after the latching step of that call (which is also the value held after the
call); when `t - startTime` equals the threshold, a rose that was not in full
bloom stays not in full bloom. -/
theorem update_fullBloom_iff (r : Rose K) (t : K) :
    ((r.update t).fullBloom = true ↔
      (r.fullBloom = true ∨
        t - toNumber (r.latch t).startTime
          > (r.petalCount : K) * r.petalDelay + r.petalDuration)) ∧
    (r.update t).startTime = (r.latch t).startTime ∧
    (r.fullBloom = false →
      t - toNumber (r.latch t).startTime
        = (r.petalCount : K) * r.petalDelay + r.petalDuration →
      (r.update t).fullBloom = false) := by
  have key : (r.update t).fullBloom = true ↔
      (r.fullBloom = true ∨
        t - toNumber (r.latch t).startTime
          > (r.petalCount : K) * r.petalDelay + r.petalDuration) := by
    unfold Rose.update; dsimp only
    rw [latch_bloomThreshold]
    split
    · rename_i h; simp [h]
    · rename_i h
      simp only [latch_fullBloom]
      constructor
      · intro h1; exact Or.inl h1
      · rintro (h1 | h1)
        · exact h1
        · exact absurd h1 h
  refine ⟨key, update_startTime r t, ?_⟩
  intro hf heq
  cases hb : (r.update t).fullBloom
  · rfl
  · rcases key.mp hb with h1 | h1
    · rw [hf] at h1; cases h1
    · rw [heq] at h1; exact absurd h1 (lt_irrefl _)

/-- Claim C2. With `petalDuration > 0`, the growth of petal `i` lies in
`[0, 1]`, is `0` when `petalElapsed = elapsed - i * petalDelay` is at most
`0`, and is `1` when `petalElapsed` is at least `petalDuration`. -/
theorem petalGrowth_bounds (r : Rose K) (elapsed : K) (i : ℕ) (hd : 0 < r.petalDuration) :
    0 ≤ r.petalGrowth elapsed i ∧ r.petalGrowth elapsed i ≤ 1 ∧
    (elapsed - (i : K) * r.petalDelay ≤ 0 → r.petalGrowth elapsed i = 0) ∧
    (elapsed - (i : K) * r.petalDelay ≥ r.petalDuration → r.petalGrowth elapsed i = 1) := by
  unfold Rose.petalGrowth
  refine ⟨le_min (le_max_right _ _) zero_le_one, min_le_right _ _, ?_, ?_⟩
  · intro h
    have hq : (elapsed - (i : K) * r.petalDelay) / r.petalDuration ≤ 0 :=
      div_nonpos_of_nonpos_of_nonneg h hd.le
    simp [max_eq_right hq]
  · intro h
    have hq : 1 ≤ (elapsed - (i : K) * r.petalDelay) / r.petalDuration :=
      (one_le_div hd).mpr h
    exact min_eq_right (le_trans hq (le_max_left _ _))

/-- Claim C5, as amended. For a fresh rose with `petalCount = 8`,
`petalDelay = 300`, `petalDuration = 500` whose `startTime` is latched by a
first `update(t0)` with `t0` nonzero, after `update(t0 + 450)` the growth
values that `draw(t0 + 450)` computes are `0.9` for petal 0, `0.3` for petal 1
and `0` for the others; the values `1` and `0.5` are those computed at
`t0 + 550`. -/
theorem scenario_growths (r : Rose K) (t0 : K) (hc : r.petalCount = 8)
    (hd : r.petalDelay = 300) (hp : r.petalDuration = 500) (hs : r.startTime = none)
    (ht : t0 ≠ 0) :
    ((r.update t0).update (t0 + 450)).growths (t0 + 450)
      = [9 / 10, 3 / 10, 0, 0, 0, 0, 0, 0] ∧
    ((r.update t0).update (t0 + 550)).growths (t0 + 550)
      = [1, 1 / 2, 0, 0, 0, 0, 0, 0] := by
  have h1 : ∀ t : K, ((r.update t0).update t).startTime = some t0 := fun t =>
    update_startTime_latched _ _ _ (update_startTime_fresh r t0 hs) ht
  have hr : List.range 8 = [0, 1, 2, 3, 4, 5, 6, 7] := by decide
  constructor
  · simp only [Rose.growths, Rose.elapsed, Rose.petalGrowth, h1, toNumber, update_petalCount,
      update_petalDelay, update_petalDuration, hc, hd, hp, hr, List.map_cons, List.map_nil,
      add_sub_cancel_left]
    norm_num
  · simp only [Rose.growths, Rose.elapsed, Rose.petalGrowth, h1, toNumber, update_petalCount,
      update_petalDelay, update_petalDuration, hc, hd, hp, hr, List.map_cons, List.map_nil,
      add_sub_cancel_left]
    norm_num

/-- Claim C10, as amended. For `petalCount ≥ 1`, `petalDelay > 0` and
`petalDuration > 0`, the least elapsed time at which the growth of the last
petal is `1` is `(petalCount - 1) * petalDelay + petalDuration`; the
threshold of `update` is that moment plus one `petalDelay`, hence strictly
later. -/
theorem lastPetal_full_least (r : Rose K) (hn : 1 ≤ r.petalCount) (hdl : 0 < r.petalDelay)
    (hd : 0 < r.petalDuration) :
    IsLeast {e : K | r.petalGrowth e (r.petalCount - 1) = 1}
      (((r.petalCount - 1 : ℕ) : K) * r.petalDelay + r.petalDuration) ∧
    (r.petalCount : K) * r.petalDelay + r.petalDuration
      = (((r.petalCount - 1 : ℕ) : K) * r.petalDelay + r.petalDuration) + r.petalDelay ∧
    ((r.petalCount - 1 : ℕ) : K) * r.petalDelay + r.petalDuration
      < (r.petalCount : K) * r.petalDelay + r.petalDuration := by
  have key : ∀ e : K, r.petalGrowth e (r.petalCount - 1) = 1 ↔
      ((r.petalCount - 1 : ℕ) : K) * r.petalDelay + r.petalDuration ≤ e := by
    intro e
    unfold Rose.petalGrowth
    dsimp only
    constructor
    · intro h
      have h1 : (1 : K) ≤
          max ((e - ((r.petalCount - 1 : ℕ) : K) * r.petalDelay) / r.petalDuration) 0 := by
        by_contra hlt
        push_neg at hlt
        rw [min_eq_left hlt.le] at h
        exact absurd h (ne_of_lt hlt)
      have h2 : (1 : K) ≤
          (e - ((r.petalCount - 1 : ℕ) : K) * r.petalDelay) / r.petalDuration := by
        rcases le_max_iff.mp h1 with h2 | h2
        · exact h2
        · exact absurd h2 (by norm_num)
      have h3 := (one_le_div hd).mp h2
      linarith
    · intro h
      have h2 : (1 : K) ≤
          (e - ((r.petalCount - 1 : ℕ) : K) * r.petalDelay) / r.petalDuration :=
        (one_le_div hd).mpr (by linarith)
      exact min_eq_right (le_trans h2 (le_max_left _ _))
  have hcast : ((r.petalCount - 1 : ℕ) : K) = (r.petalCount : K) - 1 := by
    rw [Nat.cast_sub hn, Nat.cast_one]
  refine ⟨⟨(key _).mpr le_rfl, fun e he => (key e).mp he⟩, ?_, ?_⟩
  · rw [hcast]; ring
  · rw [hcast]; linarith

end UpdateClaims

/-- Witness for C1: a rose latched at `1000` that is not in full bloom, at
`t = 3900`, where `t - startTime` equals the threshold `2900`. -/
theorem update_fullBloom_iff_witness :
    ({ sampleRose ℚ with startTime := some 1000 } : Rose ℚ).fullBloom = false ∧
    (({ sampleRose ℚ with startTime := some 1000 } : Rose ℚ).update 3900).fullBloom = false :=
  ⟨rfl,
    (update_fullBloom_iff ({ sampleRose ℚ with startTime := some 1000 } : Rose ℚ) 3900).2.2 rfl
      (by
        rw [latch_startTime_latched _ 1000 3900 rfl (by norm_num)]
        norm_num [toNumber, sampleRose])⟩

/-- Witness for C2: the sample rose has `petalDuration = 500 > 0`; petal 1
has growth `0` at elapsed `0` and petal 0 has growth `1` at elapsed `800`. -/
theorem petalGrowth_bounds_witness :
    0 < (sampleRose ℚ).petalDuration ∧
    (sampleRose ℚ).petalGrowth 0 1 = 0 ∧ (sampleRose ℚ).petalGrowth 800 0 = 1 :=
  ⟨by norm_num [sampleRose],
    (petalGrowth_bounds (sampleRose ℚ) 0 1 (by norm_num [sampleRose])).2.2.1
      (by norm_num [sampleRose]),
    (petalGrowth_bounds (sampleRose ℚ) 800 0 (by norm_num [sampleRose])).2.2.2
      (by norm_num [sampleRose])⟩

/-- Claim C4, at the failing input. On a fresh rose, `update(0)` stores
`startTime = 0`; the guard `!this.startTime` is true again at the next call,
so `update(5)` overwrites `startTime` with `5` and the elapsed time of that
frame is `0`, not `5`. -/
theorem startTime_relatched_after_zero :
    (sampleRose ℚ).startTime = none ∧
    ((sampleRose ℚ).update 0).startTime = some 0 ∧
    (((sampleRose ℚ).update 0).update 5).startTime = some 5 ∧
    (((sampleRose ℚ).update 0).update 5).elapsed 5 = 0 := by
  have h0 : ((sampleRose ℚ).update 0).startTime = some 0 := update_startTime_fresh _ _ rfl
  have h1 : (((sampleRose ℚ).update 0).update 5).startTime = some 5 :=
    update_startTime_zero _ _ h0
  refine ⟨rfl, h0, h1, ?_⟩
  simp [Rose.elapsed, h1, toNumber]

/-- Counterexample to C5 as stated: with `startTime` latched by `update(0)`,
after `update(450)` the growth values of `draw(450)` for petals 0 and 1 are
not `1` and `0.5`. -/
theorem scenario_growths_counterexample :
    ¬ (((((sampleRose ℚ).update 0).update 450).growths 450)[0]? = some 1 ∧
      ((((sampleRose ℚ).update 0).update 450).growths 450)[1]? = some (1 / 2)) := by
  have h0 : ((sampleRose ℚ).update 0).startTime = some 0 := update_startTime_fresh _ _ rfl
  have h1 : (((sampleRose ℚ).update 0).update 450).startTime = some 450 :=
    update_startTime_zero _ _ h0
  have hc : (sampleRose ℚ).petalCount = 8 := rfl
  have hd : (sampleRose ℚ).petalDelay = 300 := rfl
  have hp : (sampleRose ℚ).petalDuration = 500 := rfl
  simp only [Rose.growths, Rose.elapsed, Rose.petalGrowth, h1, toNumber, update_petalCount,
    update_petalDelay, update_petalDuration, hc, hd, hp]
  simp [List.range_succ]

/-- Witness for C5 as amended: the sample rose, first updated at `1000`. -/
theorem scenario_growths_witness :
    (1000 : ℚ) ≠ 0 ∧
    (((sampleRose ℚ).update 1000).update (1000 + 450)).growths (1000 + 450)
      = [9 / 10, 3 / 10, 0, 0, 0, 0, 0, 0] :=
  ⟨by norm_num, (scenario_growths (sampleRose ℚ) 1000 rfl rfl rfl rfl (by norm_num)).1⟩

/-- Counterexample to C10 as stated: the sample rose satisfies the three
hypotheses, its last petal (index 7) already has growth `1` at elapsed
`2600`, so the threshold `2900` is not the least such elapsed time. -/
theorem lastPetal_threshold_counterexample :
    1 ≤ (sampleRose ℚ).petalCount ∧ 0 < (sampleRose ℚ).petalDelay ∧
    0 < (sampleRose ℚ).petalDuration ∧
    (sampleRose ℚ).petalGrowth 2600 ((sampleRose ℚ).petalCount - 1) = 1 ∧
    ¬ IsLeast {e : ℚ | (sampleRose ℚ).petalGrowth e ((sampleRose ℚ).petalCount - 1) = 1}
        (((sampleRose ℚ).petalCount : ℚ) * (sampleRose ℚ).petalDelay
          + (sampleRose ℚ).petalDuration) := by
  have hmem : (sampleRose ℚ).petalGrowth 2600 ((sampleRose ℚ).petalCount - 1) = 1 := by
    norm_num [Rose.petalGrowth, sampleRose]
  refine ⟨by decide, by norm_num [sampleRose], by norm_num [sampleRose], hmem, ?_⟩
  intro h
  have hle := h.2 hmem
  norm_num [sampleRose] at hle

/-- Witness for C10 as amended, on the sample rose. -/
theorem lastPetal_full_least_witness :
    1 ≤ (sampleRose ℚ).petalCount ∧
    IsLeast {e : ℚ | (sampleRose ℚ).petalGrowth e ((sampleRose ℚ).petalCount - 1) = 1}
      ((((sampleRose ℚ).petalCount - 1 : ℕ) : ℚ) * (sampleRose ℚ).petalDelay
        + (sampleRose ℚ).petalDuration) :=
  ⟨by decide,
    (lastPetal_full_least (sampleRose ℚ) (by decide) (by norm_num [sampleRose])
      (by norm_num [sampleRose])).1⟩

/-! ## Claims about the curve helpers -/

/-- Claim C3. At `t = 0` the curve point is `p0` and at `t = 1` it is `p3`,
for arbitrary control points, in exact arithmetic. -/
theorem getCubicBezierPoint_endpoints {K : Type} [Field K] (p0 p1 p2 p3 : Point K) :
    getCubicBezierPoint 0 p0 p1 p2 p3 = p0 ∧ getCubicBezierPoint 1 p0 p1 p2 p3 = p3 := by
  constructor <;> simp [getCubicBezierPoint]

/-- Claim C6. Over the reals, each coordinate of `getCubicBezierTangent` at
`t` is the derivative at `t` of the same coordinate of `getCubicBezierPoint`,
and it equals `3(1-t)^2 (p1-p0) + 6(1-t)t (p2-p1) + 3t^2 (p3-p2)`. -/
theorem getCubicBezierTangent_hasDerivAt (p0 p1 p2 p3 : Point ℝ) (t : ℝ) :
    HasDerivAt (fun s : ℝ => (getCubicBezierPoint s p0 p1 p2 p3).x)
      (getCubicBezierTangent t p0 p1 p2 p3).x t ∧
    HasDerivAt (fun s : ℝ => (getCubicBezierPoint s p0 p1 p2 p3).y)
      (getCubicBezierTangent t p0 p1 p2 p3).y t ∧
    (getCubicBezierTangent t p0 p1 p2 p3).x
      = 3 * (1 - t) ^ 2 * (p1.x - p0.x) + 6 * (1 - t) * t * (p2.x - p1.x)
        + 3 * t ^ 2 * (p3.x - p2.x) ∧
    (getCubicBezierTangent t p0 p1 p2 p3).y
      = 3 * (1 - t) ^ 2 * (p1.y - p0.y) + 6 * (1 - t) * t * (p2.y - p1.y)
        + 3 * t ^ 2 * (p3.y - p2.y) := by
  have hu : HasDerivAt (fun s : ℝ => 1 - s) (-1) t := by
    simpa using (hasDerivAt_id t).const_sub 1
  have ht : HasDerivAt (fun s : ℝ => s) 1 t := hasDerivAt_id t
  have poly : ∀ a b c d : ℝ,
      HasDerivAt (fun s : ℝ => (1 - s) * (1 - s) * (1 - s) * a + 3 * ((1 - s) * (1 - s)) * s * b
          + 3 * (1 - s) * (s * s) * c + s * s * s * d)
        (-3 * ((1 - t) * (1 - t)) * a + 3 * ((1 - t) * (1 - t)) * b - 6 * (1 - t) * t * b
          + 6 * (1 - t) * t * c - 3 * (t * t) * c + 3 * (t * t) * d) t := by
    intro a b c d
    have h := (((((hu.mul hu).mul hu).mul_const a).add
      ((((hu.mul hu).const_mul 3).mul ht).mul_const b)).add
      (((hu.const_mul 3).mul (ht.mul ht)).mul_const c)).add (((ht.mul ht).mul ht).mul_const d)
    refine h.congr_deriv ?_
    ring
  refine ⟨poly p0.x p1.x p2.x p3.x, poly p0.y p1.y p2.y p3.y, ?_, ?_⟩
  · simp only [getCubicBezierTangent]; ring
  · simp only [getCubicBezierTangent]; ring

/-! ## Claims about `draw` -/

/-- Claim C7. When `fullBloom` is false the sway offset of `draw` is exactly
`(0, 0)` and the translation is exactly `(x, y)`, for every `currentTime`;
when `fullBloom` is true the offset is `(sway * tiltDirection, sway * 0.3)`
with `sway = sin(currentTime * swayFrequency + phase) * swayAmplitude`. -/
theorem swayOffset_spec {K : Type} [LinearOrderedField K] (M : JSMath K) (r : Rose K)
    (currentTime : K) :
    (r.fullBloom = false →
      r.swayOffset M currentTime = (0, 0) ∧ (r.draw M currentTime).translate = (r.x, r.y)) ∧
    (r.fullBloom = true →
      r.swayOffset M currentTime =
        (M.sin (currentTime * r.swayFrequency + r.phase) * r.swayAmplitude * r.tiltDirection,
         M.sin (currentTime * r.swayFrequency + r.phase) * r.swayAmplitude * (3 / 10)) ∧
      (r.draw M currentTime).translate =
        (r.x + M.sin (currentTime * r.swayFrequency + r.phase) * r.swayAmplitude
            * r.tiltDirection,
         r.y + M.sin (currentTime * r.swayFrequency + r.phase) * r.swayAmplitude
            * (3 / 10))) := by
  constructor
  · intro h
    simp [Rose.draw, Rose.swayOffset, h]
  · intro h
    simp [Rose.draw, Rose.swayOffset, h]

/-- Witness for C7, over the reals with the real sine: the sample rose is
not in full bloom and is translated to `(500, 150)` at time `1234`; the same
rose in full bloom is offset by the sway. -/
theorem swayOffset_spec_witness :
    (sampleRose ℝ).fullBloom = false ∧
    ((sampleRose ℝ).draw ⟨Real.sin, Real.cos, Real.pi⟩ 1234).translate
      = ((sampleRose ℝ).x, (sampleRose ℝ).y) ∧
    ({ sampleRose ℝ with fullBloom := true } : Rose ℝ).swayOffset
        ⟨Real.sin, Real.cos, Real.pi⟩ 1234
      = (Real.sin (1234 * (sampleRose ℝ).swayFrequency + (sampleRose ℝ).phase)
            * (sampleRose ℝ).swayAmplitude * (sampleRose ℝ).tiltDirection,
         Real.sin (1234 * (sampleRose ℝ).swayFrequency + (sampleRose ℝ).phase)
            * (sampleRose ℝ).swayAmplitude * (3 / 10)) :=
  ⟨rfl,
    ((swayOffset_spec ⟨Real.sin, Real.cos, Real.pi⟩ (sampleRose ℝ) 1234).1 rfl).2,
    ((swayOffset_spec ⟨Real.sin, Real.cos, Real.pi⟩
      ({ sampleRose ℝ with fullBloom := true } : Rose ℝ) 1234).2 rfl).1⟩

/-! ## Claims about the bouquet -/

/-- Claim C8, at the failing input. The script is loaded in a 2000 x 1000
window (canvas 1000 x 600, `basePoint = (500, 650)`), the window is resized to
1000 x 500 (canvas 900 x 350) and `createBouquet()` runs: every rose gets
`stemP3 = (500, 650)`, while `(canvasWidth / 2, canvasHeight + 50)` is
`(450, 400)`.  All six roses do share one `stemP3`. -/
theorem stemP3_stale_after_resize (M : JSMath ℚ) (rnd0 rnd : ℕ → ℚ) :
    (createBouquet M rnd (resizeCanvas 1000 500 (loadScript M rnd0 2000 1000))).canvasWidth / 2
      = 450 ∧
    (createBouquet M rnd (resizeCanvas 1000 500 (loadScript M rnd0 2000 1000))).canvasHeight + 50
      = 400 ∧
    (createBouquet M rnd (resizeCanvas 1000 500 (loadScript M rnd0 2000 1000))).roses.map
        (fun r => r.stemP3) = List.replicate 6 { x := 500, y := 650 } := by
  refine ⟨?_, ?_, ?_⟩
  · norm_num [createBouquet, resizeCanvas]
  · norm_num [createBouquet, resizeCanvas]
  · rw [createBouquet_stemP3]
    norm_num [resizeCanvas, loadScript, createBouquet]

/-- Claim C9. For fixed canvas width and height, two runs of `createBouquet`
with any random outcomes (and any previous `basePoint` and `roses`) each give
6 roses and agree rose by rose on `x`, `y`, `size`, `petalCount`; the first 3
are main roses of size 80 with 8 petals at
`center + radius * (cos, sin)(i*2π/3 - π/2)`, the last 3 secondary roses of
size 50 with 6 petals at `center + 1.2 * radius * (cos, sin)(i*2π/3 - π/2 + π/6)`,
with `center = (width/2, height/2)` and `radius = min(width, height)/4`. -/
theorem createBouquet_layout {K : Type} [LinearOrderedField K] (M : JSMath K)
    (width height : K) (bp1 bp2 : Point K) (old1 old2 : List (Rose K)) (rnd1 rnd2 : ℕ → K) :
    (createBouquet M rnd1 ⟨width, height, bp1, old1⟩).roses.length = 6 ∧
    (createBouquet M rnd2 ⟨width, height, bp2, old2⟩).roses.length = 6 ∧
    (createBouquet M rnd1 ⟨width, height, bp1, old1⟩).roses.map
        (fun r => (r.x, r.y, r.size, r.petalCount)) =
      (createBouquet M rnd2 ⟨width, height, bp2, old2⟩).roses.map
        (fun r => (r.x, r.y, r.size, r.petalCount)) ∧
    (createBouquet M rnd1 ⟨width, height, bp1, old1⟩).roses.map
        (fun r => (r.isMain, r.size, r.petalCount, r.x, r.y)) =
      (List.range 3).map (fun i =>
        (true, (80 : K), 8,
          width / 2 + min width height / 4 * M.cos ((i : K) * 2 * M.pi / 3 - M.pi / 2),
          height / 2 + min width height / 4 * M.sin ((i : K) * 2 * M.pi / 3 - M.pi / 2))) ++
      (List.range 3).map (fun i =>
        (false, (50 : K), 6,
          width / 2 + 12 / 10 * (min width height / 4)
            * M.cos ((i : K) * 2 * M.pi / 3 - M.pi / 2 + M.pi / 6),
          height / 2 + 12 / 10 * (min width height / 4)
            * M.sin ((i : K) * 2 * M.pi / 3 - M.pi / 2 + M.pi / 6))) := by
  have hcomm : ∀ a : K, a * (12 / 10) = 12 / 10 * a := fun a => mul_comm _ _
  refine ⟨by simp [createBouquet], by simp [createBouquet], ?_, ?_⟩
  · simp [createBouquet, mainRose, secondaryRose, newRose, List.range_succ]
  · simp [createBouquet, mainRose, secondaryRose, newRose, List.range_succ, hcomm]

end PetaloDeRosas
